import Mathlib

/-!
Verification of the tool-chaining orchestration core of `jhutils`
(`jhutils/agent/tools/_tools.py`, `_toolset.py`, `_schemas.py`,
`jhutils/agent/_assistant.py`) via a shallow embedding in Lean.

Python classes become inductives/structures, the mutable `Toolset` becomes
explicit state passing, raising becomes `Except.error`, and the external
reasoning engine and collaborator clients (Mealie, Obsidian) become oracle
functions supplied as parameters.
-/

/-- The static tool catalog entries (`TOOLS` in `_tools.py`): the four
registered tool classes. -/
inductive Tool
  | AddTasksTool
  | AddShoppingItemsTool
  | ReadRecipeTool
  | RespondTool
deriving DecidableEq

/-- The `__qualname__` of each tool class. -/
def Tool.qualname : Tool → String
  | .AddTasksTool => "AddTasksTool"
  | .AddShoppingItemsTool => "AddShoppingItemsTool"
  | .ReadRecipeTool => "ReadRecipeTool"
  | .RespondTool => "RespondTool"

/-- Identity of the input-schema classes declared by the tools
(`AddTasksInputSchema`, `AddShoppingItemsInputSchema`, `ReadRecipeInputSchema`,
`RespondInputSchema`). -/
inductive SchemaId
  | addTasksInputSchema
  | addShoppingItemsInputSchema
  | readRecipeInputSchema
  | respondInputSchema
deriving DecidableEq

/-- The `input_schema` class attribute of each tool. -/
def Tool.input_schema : Tool → SchemaId
  | .AddTasksTool => .addTasksInputSchema
  | .AddShoppingItemsTool => .addShoppingItemsInputSchema
  | .ReadRecipeTool => .readRecipeInputSchema
  | .RespondTool => .respondInputSchema

/-- The `__name__` of each input-schema class. -/
def SchemaId.name : SchemaId → String
  | .addTasksInputSchema => "AddTasksInputSchema"
  | .addShoppingItemsInputSchema => "AddShoppingItemsInputSchema"
  | .readRecipeInputSchema => "ReadRecipeInputSchema"
  | .respondInputSchema => "RespondInputSchema"

/-- An instance of one of the tools' input schemas, the discriminated union
used for `called_tool_input`.  Fields follow the pydantic schemas:
`AddTasksInputSchema.tasks`, `AddShoppingItemsInputSchema.items`,
`ReadRecipeInputSchema.{recipe_name, scale_factor, target_servings}`,
`RespondInputSchema.response` (which is `str | None`). -/
inductive ToolInput
  | addTasks (tasks : List String)
  | addShoppingItems (items : List String)
  | readRecipe (recipe_name : String) (scale_factor : Float)
      (target_servings : Option Int)
  | respond (response : Option String)

/-- The schema class an input instance belongs to (what Python's
`isinstance` dispatches on). -/
def ToolInput.schemaId : ToolInput → SchemaId
  | .addTasks _ => .addTasksInputSchema
  | .addShoppingItems _ => .addShoppingItemsInputSchema
  | .readRecipe _ _ _ => .readRecipeInputSchema
  | .respond _ => .respondInputSchema

/-- Field-level validity enforced by pydantic at instance construction:
`tasks` and `items` are `conlist(str, min_length=1)`. -/
def ToolInput.fieldValid : ToolInput → Bool
  | .addTasks tasks => !tasks.isEmpty
  | .addShoppingItems items => !items.isEmpty
  | .readRecipe _ _ _ => true
  | .respond _ => true

/-- Oracle for the Mealie client, covering the two operations the tools use:
`parse_items(items, as_payload=True)` is abstracted by the list of parsed
item names, and `read_recipe(recipe_name, scale_factor, target_servings)`
by the returned Markdown text. -/
structure Mealie where
  parse_item_names : List String → List String
  read_recipe : String → Float → Option Int → String

/-- Oracle for the Obsidian client.  `AddTasksTool.run` only calls
`obsidian.add_tasks` for its side effect, so no behavior is recorded. -/
structure Obsidian where
  mk ::

/-- The static catalog `TOOLS` from `_tools.py`, in declaration order. -/
def TOOLS : List Tool :=
  [.AddTasksTool, .AddShoppingItemsTool, .ReadRecipeTool, .RespondTool]

/-- The mode table `AVAILABLE_MODES` from `_tools.py`, in declaration
order. -/
def AVAILABLE_MODES : List (String × List String) :=
  [("general", ["AddTasksTool", "AddShoppingItemsTool", "RespondTool"]),
   ("shopping", ["AddShoppingItemsTool", "RespondTool"]),
   ("cooking", ["AddShoppingItemsTool", "ReadRecipeTool"]),
   ("review", []),
   ("theology", []),
   ("testing", [])]

/-- State of a `Toolset` instance: the catalog copy `_all_tools`, the stored
collaborator kwargs (`obsidian`, `mealie`), the current `_mode`, and the
derived `_available_tools` and `_selected_tools` lists. -/
structure Toolset where
  all_tools : List Tool
  obsidian : Option Obsidian
  mealie : Option Mealie
  mode : String
  available_tools : List Tool
  selected_tools : List Tool

/-- Names of all tools (`all_tool_names` property). -/
def Toolset.all_tool_names (ts : Toolset) : List String :=
  ts.all_tools.map Tool.qualname

/-- Names of the available tools (`available_tool_names` property). -/
def Toolset.available_tool_names (ts : Toolset) : List String :=
  ts.available_tools.map Tool.qualname

/-- Names of the selected tools (`selected_tool_names` property). -/
def Toolset.selected_tool_names (ts : Toolset) : List String :=
  ts.selected_tools.map Tool.qualname

/-- The message raised by the `mode` setter for an unsupported mode:
`f"Mode '{mode}' is not supported. Available modes: {AVAILABLE_MODES.keys()}"`. -/
def unsupportedModeMessage (mode : String) : String :=
  "Mode '" ++ mode ++ "' is not supported. Available modes: " ++
    "dict_keys(['general', 'shopping', 'cooking', 'review', 'theology', " ++
    "'testing'])"

/-- The `mode` property setter: looks the mode up in `AVAILABLE_MODES`,
raising if absent; on success recomputes `_available_tools` as the ordered
filter of `all_tools` by the mode's name list and stores the new mode.
It does not touch `_selected_tools`. -/
def Toolset.setMode (ts : Toolset) (mode : String) : Except String Toolset :=
  match AVAILABLE_MODES.lookup mode with
  | none => .error (unsupportedModeMessage mode)
  | some available_tool_names =>
      .ok { ts with
              available_tools :=
                ts.all_tools.filter
                  (fun t => available_tool_names.contains t.qualname),
              mode := mode }

/-- The `Toolset.__init__` constructor: copies `TOOLS`, stores the
collaborator kwargs, runs the `mode` setter, then sets
`_selected_tools := _available_tools`. -/
def Toolset.init (mode : String) (obsidian : Option Obsidian)
    (mealie : Option Mealie) : Except String Toolset :=
  match Toolset.setMode
      { all_tools := TOOLS, obsidian := obsidian, mealie := mealie,
        mode := "", available_tools := [], selected_tools := [] } mode with
  | .error e => .error e
  | .ok ts1 => .ok { ts1 with selected_tools := ts1.available_tools }

/-- The `selected_tools` property setter: iterates over the given tools,
raising on the first one not contained in `_available_tools`; only then
replaces `_selected_tools`. -/
def Toolset.setSelectedTools (ts : Toolset) (tools : List Tool) :
    Except String Toolset :=
  match tools.find? (fun t => !ts.available_tools.contains t) with
  | some t =>
      .error (t.qualname ++ " is not available in mode " ++ ts.mode ++ ".")
  | none => .ok { ts with selected_tools := tools }

/-- The `reset_selected_tools` method: sets `_selected_tools` back to
`_available_tools`. -/
def Toolset.reset_selected_tools (ts : Toolset) : Toolset :=
  { ts with selected_tools := ts.available_tools }

/-- A concrete `Toolset("general")` built without collaborator kwargs. -/
def tsGeneral : Toolset :=
  { all_tools := TOOLS, obsidian := none, mealie := none, mode := "general",
    available_tools := [.AddTasksTool, .AddShoppingItemsTool, .RespondTool],
    selected_tools := [.AddTasksTool, .AddShoppingItemsTool, .RespondTool] }

/-- The state reached from `tsGeneral` by setting the mode to "cooking":
the available tools are recomputed but the selected tools are left as they
were in "general" mode. -/
def tsCookingStale : Toolset :=
  { tsGeneral with
      mode := "cooking"
      available_tools := [.AddShoppingItemsTool, .ReadRecipeTool] }

/-- Python truthiness of the optional `tool_name` argument in
`Toolset.get_tool`: `not tool_name` is true for `None` and for the empty
string. -/
def pyFalsyName : Option String → Bool
  | none => true
  | some s => s == ""

/-- An unregistered input-schema class (such as the local `InvalidSchema`
class used in the tests), which no tool declares. -/
def SchemaId.invalidName : String := "InvalidSchema"

/-- The `tool_schema` argument of `Toolset.get_tool`: either an instance of
an input schema, the input-schema class of a tool, or an unregistered
schema class. -/
inductive SchemaArg
  | inst : ToolInput → SchemaArg
  | cls : SchemaId → SchemaArg
  | foreignCls : SchemaArg

/-- The per-tool test in the `get_tool` loop:
`isinstance(tool_schema, tool.input_schema) or tool.input_schema ==
tool_schema`.  An instance argument matches only by `isinstance`; a class
argument matches only by class equality (a schema class is not an instance
of a schema class, and an instance never equals a class). -/
def schemaArgMatches (arg : SchemaArg) (s : SchemaId) : Bool :=
  match arg with
  | .inst i => i.schemaId == s
  | .cls c => c == s
  | .foreignCls => false

/-- The name `get_tool` reports in its not-found error when no `tool_name`
was given: the schema class `__name__`, or the instance's class name. -/
def SchemaArg.reportedName : SchemaArg → String
  | .inst i => i.schemaId.name
  | .cls c => c.name
  | .foreignCls => SchemaId.invalidName

/-- The message raised when `get_tool` is called with neither selector. -/
def invalidSelectorMessage : String :=
  "Either \"tool_name\" or \"tool_schema\" must be provided."

/-- The message raised when `get_tool` finds no matching tool. -/
def toolNotFoundMessage (name : String) : String :=
  "Tool with name \"" ++ name ++ "\" not found in the toolset."

/-- The `Toolset.get_tool` method: raises if both selectors are falsy,
otherwise returns the first tool of `all_tools` matching the name or the
schema, raising the not-found error (naming the attempted name or schema)
when none matches. -/
def Toolset.get_tool (ts : Toolset) (tool_name : Option String)
    (tool_schema : Option SchemaArg) : Except String Tool :=
  if pyFalsyName tool_name && tool_schema.isNone then
    .error invalidSelectorMessage
  else
    match ts.all_tools.find? (fun tool =>
        (match tool_name with
         | some n => tool.qualname == n
         | none => false) ||
        (match tool_schema with
         | some arg => schemaArgMatches arg tool.input_schema
         | none => false)) with
    | some tool => .ok tool
    | none =>
        .error (toolNotFoundMessage
          (match tool_name with
           | some n => n
           | none => (tool_schema.map SchemaArg.reportedName).getD ""))

/-- The `Toolset.get_input_schema` method: the `input_schema` attribute of
the resolved tool. -/
def Toolset.get_input_schema (ts : Toolset) (tool_name : Option String)
    (tool_schema : Option SchemaArg) : Except String SchemaId :=
  (ts.get_tool tool_name tool_schema).map Tool.input_schema

/-- Index of the last occurrence of a string in a list, modelling the
lowered-phrase dict built by `_match_phrase` (later duplicate keys
overwrite earlier ones). -/
def lastIndexOf (l : List String) (x : String) : Option Nat :=
  ((l.enum.filter (fun p => p.2 == x)).getLast?).map Prod.fst

/-- Parameter names of `_match_phrase` in `jhutils/_utils.py`:
`query`, `phrases`, `as_index` and `score_cutoff`. -/
def matchPhraseParamNames : List String :=
  ["query", "phrases", "as_index", "score_cutoff"]

/-- Keyword-argument names passed at the `_match_phrase` call site inside
`Toolset.match_mode`: `phrases`, `min_score` and `as_index`. -/
def matchModeCallKwargNames : List String :=
  ["phrases", "min_score", "as_index"]

/-- Python call semantics for keyword arguments: calling a function with a
keyword argument whose name is not among the function's parameters raises
`TypeError` before the function body runs. -/
def checkKwargNames (fname : String) (paramNames kwargNames : List String) :
    Except String Unit :=
  match kwargNames.find? (fun k => !paramNames.contains k) with
  | some k =>
      .error ("TypeError: " ++ fname ++
        "() got an unexpected keyword argument '" ++ k ++ "'")
  | none => .ok ()

/-- The body of `_match_phrase` (`jhutils/_utils.py`): `None` on an empty
phrase list; otherwise an exact case-insensitive match against the phrases
(via a dict from lowered phrase to index, where later duplicates win),
falling back to the rapidfuzz `WRatio` scorer, abstracted here as an oracle
`extractOne` returning the best phrase and its index when its score reaches
the cutoff, and `None` otherwise.  The result is a phrase or an index
according to `as_index`. -/
def matchPhrase
    (extractOne : String → List String → Nat → Option (String × Nat))
    (query : String) (phrases : List String) (asIndex : Bool)
    (scoreCutoff : Nat) : Option (String ⊕ Nat) :=
  if phrases.isEmpty then none
  else
    match lastIndexOf (phrases.map (fun p => p.toLower)) query.toLower with
    | some idx =>
        some (if asIndex then .inr idx else .inl (phrases.getD idx ""))
    | none =>
        match extractOne query phrases scoreCutoff with
        | none => none
        | some (m, idx) => some (if asIndex then .inr idx else .inl m)

/-- The `Toolset.match_mode` method: calls
`_match_phrase(query, phrases=available_modes, min_score=85,
as_index=False)`.  The keyword binding is checked first, as Python does;
the rest of the body (update the mode when the match is a string among the
available modes, then return the match) follows the source. -/
def Toolset.match_mode
    (extractOne : String → List String → Nat → Option (String × Nat))
    (ts : Toolset) (query : String) :
    Except String (Toolset × Option (String ⊕ Nat)) :=
  match checkKwargNames "_match_phrase" matchPhraseParamNames
      matchModeCallKwargNames with
  | .error e => .error e
  | .ok _ =>
      match matchPhrase extractOne query (AVAILABLE_MODES.map Prod.fst)
          false 85 with
      | some (.inl m) =>
          if (AVAILABLE_MODES.map Prod.fst).contains m then
            match ts.setMode m with
            | .error e => .error e
            | .ok ts2 => .ok (ts2, some (.inl m))
          else .ok (ts, some (.inl m))
      | other => .ok (ts, other)

/-- The Chain Output record: the three fields of the dynamically created
`ChainToolOutputSchema` (`called_tool_input`, `remainder`, `next_tool`). -/
structure ChainOutput where
  called_tool_input : Option ToolInput
  remainder : String
  next_tool : Option String

/-- Field typecheck of `called_tool_input` against the dynamically built
union of the selected tools' input schemas plus `None` (an empty selected
set leaves only `None`). -/
def wellTypedCalledToolInput (selected : List Tool) :
    Option ToolInput → Bool
  | none => true
  | some i => selected.any (fun t => t.input_schema == i.schemaId)

/-- Field typecheck of `next_tool` against the closed enumeration of the
available tool names plus `None`. -/
def wellTypedNextTool (availableNames : List String) :
    Option String → Bool
  | none => true
  | some n => availableNames.contains n

/-- Whether `called_tool_input` is an instance of a given schema class,
modelling `isinstance(called_tool_input, schema)`; `None` is not an
instance of anything. -/
def isInstanceOf (cti : Option ToolInput) (s : SchemaId) : Bool :=
  match cti with
  | some i => i.schemaId == s
  | none => false

/-- The `_validate` model validator attached to the dynamic schema
(`_schemas.py`): three sequential checks, each raising `ValueError`; the
third resolves `RespondTool`'s input schema through the toolset before
testing `isinstance`. -/
def chainValidate (ts : Toolset) (cti : Option ToolInput)
    (remainder : String) (next_tool : Option String) :
    Except String Unit :=
  if remainder ≠ "" ∧ next_tool = none then
    .error "If `remainder` is not empty, `next_tool` must not be `None`."
  else if remainder = "" ∧ next_tool ≠ none then
    .error "If `remainder` is empty, `next_tool` must be `None`."
  else
    match ts.get_input_schema (some "RespondTool") none with
    | .error e => .error e
    | .ok respondSchema =>
        if isInstanceOf cti respondSchema ∧
            (remainder ≠ "" ∨ next_tool ≠ none) then
          .error ("If `called_tool_input` calls `RespondTool`, `REMAINDER` " ++
            "must be empty and `next_tool` must be `None`.")
        else .ok ()

/-- Instantiating the dynamically created `ChainToolOutputSchema` for a
toolset (`MakeChainToolOutputSchema`): pydantic first typechecks
`called_tool_input` against the union of the selected tools' input schemas
and `next_tool` against the literal union of the available tool names,
then runs the `_validate` model validator; the validated instance is
returned. -/
def buildChainOutput (ts : Toolset) (raw : ChainOutput) :
    Except String ChainOutput :=
  if !wellTypedCalledToolInput ts.selected_tools raw.called_tool_input then
    .error "ValidationError: called_tool_input"
  else if !wellTypedNextTool ts.available_tool_names raw.next_tool then
    .error "ValidationError: next_tool"
  else
    match chainValidate ts raw.called_tool_input raw.remainder
        raw.next_tool with
    | .error e => .error e
    | .ok _ => .ok raw

/-- The tool an input instance belongs to: the first (and only) catalog
tool whose declared input schema the instance matches. -/
def toolOfInput : ToolInput → Tool
  | .addTasks _ => .AddTasksTool
  | .addShoppingItems _ => .AddShoppingItemsTool
  | .readRecipe _ _ _ => .ReadRecipeTool
  | .respond _ => .RespondTool

/-- A live tool instance built by `Toolset.initialize_tool`, holding the
collaborators its constructor received. -/
inductive ToolInstance
  | addTasksTool (obsidian : Obsidian)
  | addShoppingItemsTool (mealie : Mealie)
  | readRecipeTool (mealie : Option Mealie)
  | respondTool

/-- The `Toolset.initialize_tool` method: resolves the tool via `get_tool`,
filters the stored kwargs to the names declared by the tool's constructor
(`get_kwargs`), and calls the constructor.  `AddTasksTool.__init__`
requires `obsidian` and `AddShoppingItemsTool.__init__` requires `mealie`
with no default, so a missing collaborator raises `TypeError`;
`ReadRecipeTool.__init__` defaults `mealie` to `None`; `RespondTool` takes
no collaborators. -/
def Toolset.init_tool (ts : Toolset) (tool_name : Option String)
    (tool_schema : Option SchemaArg) : Except String ToolInstance :=
  match ts.get_tool tool_name tool_schema with
  | .error e => .error e
  | .ok tool =>
      match tool with
      | .AddTasksTool =>
          match ts.obsidian with
          | some o => .ok (.addTasksTool o)
          | none =>
              .error ("TypeError: AddTasksTool.__init__() missing 1 " ++
                "required positional argument: 'obsidian'")
      | .AddShoppingItemsTool =>
          match ts.mealie with
          | some m => .ok (.addShoppingItemsTool m)
          | none =>
              .error ("TypeError: AddShoppingItemsTool.__init__() missing " ++
                "1 required positional argument: 'mealie'")
      | .ReadRecipeTool => .ok (.readRecipeTool ts.mealie)
      | .RespondTool => .ok .respondTool

/-- An instance of one of the tools' output schemas:
`AddTasksOutputSchema.result`, `AddShoppingItemsOutputSchema.result`,
`ReadRecipeOutputSchema.result`, `RespondOutputSchema.response` (which is
`str | None`). -/
inductive ToolOutput
  | addTasks (result : String)
  | addShoppingItems (result : String)
  | readRecipe (result : String)
  | respond (response : Option String)

/-- The `result` attribute of a tool output when its schema exposes one,
modelling `hasattr(tool_response, "result")` plus the read. -/
def ToolOutput.resultAttr : ToolOutput → Option String
  | .addTasks r => some r
  | .addShoppingItems r => some r
  | .readRecipe r => some r
  | .respond _ => none

/-- The `response` attribute of a tool output when its schema exposes one
(only `RespondOutputSchema` does; its value may be Python `None`),
modelling `hasattr(tool_response, "response")` plus the read. -/
def ToolOutput.responseAttr : ToolOutput → Option (Option String)
  | .respond r => some r
  | _ => none

/-- English pluralization used by the add-tools:
the singular for exactly one element, the plural otherwise. -/
def pluralize (n : Nat) (singular plural : String) : String :=
  if n = 1 then singular else plural

/-- The `run` methods of the four tools (`_add_tasks.py`,
`_add_shopping_items.py`, `_read_recipe.py`, `_respond.py`).  External
calls go through the collaborator oracles: `AddTasksTool` reports a count
and the joined tasks, `AddShoppingItemsTool` reports the names returned by
`mealie.parse_items`, `ReadRecipeTool` returns the recipe text or its
fallback message when no Mealie instance is stored, and `RespondTool`
reflects its input.  An input instance that does not belong to the tool's
declared input schema cannot arise through the chaining loop and is
modelled as `TypeError`. -/
def ToolInstance.run : ToolInstance → ToolInput → Except String ToolOutput
  | .addTasksTool _, .addTasks tasks =>
      .ok (.addTasks ("Added " ++ toString tasks.length ++ " " ++
        pluralize tasks.length "task" "tasks" ++ ": " ++
        String.intercalate ", " tasks))
  | .addShoppingItemsTool m, .addShoppingItems items =>
      .ok (.addShoppingItems
        ("Added " ++ toString (m.parse_item_names items).length ++ " " ++
          pluralize (m.parse_item_names items).length "item" "items" ++
          ": " ++ String.intercalate ", " (m.parse_item_names items)))
  | .readRecipeTool mo, .readRecipe recipe_name scale servings =>
      .ok (.readRecipe (match mo with
        | some m => m.read_recipe recipe_name scale servings
        | none =>
            "Mealie instance not available to read recipe '" ++
              recipe_name ++ "'."))
  | .respondTool, .respond r => .ok (.respond r)
  | _, _ => .error "TypeError: tool input does not match the tool"

/-- Failures that abort `AssistantAgent.run`: a validation failure from
the reasoning-engine response against the dynamic schema, a
`ValueError`/`TypeError` raised through the toolset while resolving,
constructing or running a tool, or the `RuntimeError` raised when the
chain budget is exhausted, carrying `max_chain`, the current mode and the
unaddressed query text. -/
inductive AgentError
  | schemaValidation (msg : String)
  | toolsetError (msg : String)
  | maxChainExceeded (max_chain : Nat) (mode : String) (query : String)

/-- The message attached to each failure; for `maxChainExceeded` this is
the `RuntimeError` f-string of `AssistantAgent.run`, which names the
current mode and the remaining unaddressed query. -/
def AgentError.message : AgentError → String
  | .schemaValidation msg => msg
  | .toolsetError msg => msg
  | .maxChainExceeded m mode query =>
      "Maximum chain length of " ++ toString m ++ " exceeded " ++
        "in mode: \"" ++ mode ++ "\". " ++
        "Failed to address remaining query: \"" ++ query ++ "\""

/-- The terminal fallback `"\n".join(result_text) or "Done."`: the joined
captured result texts, or the default completion marker when the join is
the empty string (in particular when no result was captured). -/
def joinResultsOrDone (result_text : List String) : String :=
  if String.intercalate "\n" result_text = "" then "Done."
  else String.intercalate "\n" result_text

/-- The `for _ in range(max_chain)` loop of `AssistantAgent.run`,
recursing on the remaining iteration budget `fuel`; the iteration index is
`max_chain - fuel`.  Each iteration rebuilds the dynamic Chain Output
schema for the current toolset state and validates the reasoning-engine
response against it (the engine is an oracle indexed by iteration),
executes the called tool if one is given, captures its `result` text, and
then either returns — the tool's `response` attribute if the executed
tool's output has one, else the joined captured results or `"Done."` —
when `next_tool` is none, or narrows the selected tools to the resolved
next tool and continues with the remainder as the new query.  Exhausting
the budget raises the max-chain `RuntimeError`.  The `Option String`
result is the Python return value, which is `None` exactly when a
`response` attribute holding `None` is returned. -/
def runChainAux (engine : Nat → ChainOutput) (max_chain : Nat) :
    Nat → Toolset → String → List String →
      Except AgentError (Option String)
  | 0, ts, query, _ =>
      .error (.maxChainExceeded max_chain ts.mode query)
  | fuel + 1, ts, query, result_text =>
      match buildChainOutput ts (engine (max_chain - (fuel + 1))) with
      | .error e => .error (.schemaValidation e)
      | .ok response =>
          match
            (match response.called_tool_input with
             | none => Except.ok (none : Option ToolOutput)
             | some inp =>
                 match ts.init_tool none (some (.inst inp)) with
                 | .error e => .error (AgentError.toolsetError e)
                 | .ok called_tool =>
                     match called_tool.run inp with
                     | .error e => .error (AgentError.toolsetError e)
                     | .ok out => .ok (some out)) with
          | .error e => .error e
          | .ok tool_response =>
              match response.next_tool with
              | none =>
                  match tool_response with
                  | some out =>
                      match out.responseAttr with
                      | some resp => .ok resp
                      | none =>
                          .ok (some (joinResultsOrDone
                            (match tool_response.bind
                                ToolOutput.resultAttr with
                             | some res => result_text ++ [res]
                             | none => result_text)))
                  | none =>
                      .ok (some (joinResultsOrDone
                        (match tool_response.bind ToolOutput.resultAttr with
                         | some res => result_text ++ [res]
                         | none => result_text)))
              | some next_name =>
                  match ts.get_tool (some next_name) none with
                  | .error e => .error (.toolsetError e)
                  | .ok next =>
                      match ts.setSelectedTools [next] with
                      | .error e => .error (.toolsetError e)
                      | .ok ts2 =>
                          runChainAux engine max_chain fuel ts2
                            response.remainder
                            (match tool_response.bind
                                ToolOutput.resultAttr with
                             | some res => result_text ++ [res]
                             | none => result_text)

/-- `AssistantAgent.run(query, reset_selected_tools=True, max_chain=5)`
(`_assistant.py`): initializes the captured-results list, resets the
selected tools when requested, and runs the bounded chaining loop. -/
def AssistantAgent.run (engine : Nat → ChainOutput) (ts : Toolset)
    (query : String) (reset_selected_tools : Bool) (max_chain : Nat) :
    Except AgentError (Option String) :=
  runChainAux engine max_chain max_chain
    (if reset_selected_tools then ts.reset_selected_tools else ts)
    query []

/-- Specification helper: the selected-tools list the chaining loop holds
at the start of iteration `i`, for a run whose post-reset starting state
is `ts0`: the initial selected list at iteration 0, then the singleton
resolved from the previous response's `next_tool`. -/
def chainSelected (engine : Nat → ChainOutput) (ts0 : Toolset) :
    Nat → List Tool
  | 0 => ts0.selected_tools
  | i + 1 =>
      match (engine i).next_tool with
      | some n =>
          match TOOLS.find? (fun t => t.qualname == n) with
          | some t => [t]
          | none => []
      | none => []

/-- Specification helper: iteration `i` of a run starting from `ts0` is a
valid non-terminal step: the engine response's remainder is non-empty, its
`next_tool` names an available tool, its `called_tool_input` typechecks
against the selected tools the loop holds at iteration `i`, and it is not
a `RespondInputSchema` instance (which validation would reject alongside a
non-none `next_tool`). -/
def ChainStepOk (engine : Nat → ChainOutput) (ts0 : Toolset) (i : Nat) :
    Prop :=
  (engine i).remainder ≠ "" ∧
  (∃ n, (engine i).next_tool = some n ∧ n ∈ ts0.available_tool_names) ∧
  wellTypedCalledToolInput (chainSelected engine ts0 i)
    (engine i).called_tool_input = true ∧
  ∀ r, (engine i).called_tool_input ≠ some (ToolInput.respond r)

/-- A trivial Mealie oracle for concrete runs: parsing returns the items
unchanged and a recipe renders as its name. -/
def mealieStub : Mealie :=
  { parse_item_names := fun items => items
    read_recipe := fun recipe_name _ _ => recipe_name }

/-- A concrete `Toolset("general", obsidian=..., mealie=...)` holding both
collaborators. -/
def tsGeneralFull : Toolset :=
  { tsGeneral with
      obsidian := some Obsidian.mk
      mealie := some mealieStub }

/-- Helper: a boolean `contains` check on a tool list coincides with list
membership. -/
theorem tool_contains_iff (l : List Tool) (t : Tool) :
    l.contains t ↔ t ∈ l :=
  List.elem_iff

/-- C5 counterexample: the claim that selected ⊆ available holds in every
reachable `Toolset` state is false.  `Toolset("general")` followed by the
mode setter with "cooking" reaches a state whose selected tools still
contain `AddTasksTool`, which is not among the available tools of the
"cooking" mode, because the mode setter does not touch `_selected_tools`. -/
theorem selected_subset_invariant_cex :
    Toolset.init "general" none none = .ok tsGeneral ∧
    tsGeneral.setMode "cooking" = .ok tsCookingStale ∧
    ¬ tsCookingStale.selected_tools ⊆ tsCookingStale.available_tools := by
  refine ⟨rfl, rfl, fun h => ?_⟩
  have h1 : Tool.AddTasksTool ∈ tsCookingStale.selected_tools := by decide
  have h2 := h h1
  revert h2
  decide

/-- C5 (amended): selected ⊆ available holds after construction, after
every successful selected-tools assignment, and after every reset; it is
not preserved by mode changes (see `selected_subset_invariant_cex`). -/
theorem selected_subset_invariant_amended (mode : String)
    (ob : Option Obsidian) (me : Option Mealie) (ts0 ts1 ts2 : Toolset)
    (tools : List Tool)
    (hinit : Toolset.init mode ob me = .ok ts0)
    (hsel : ts1.setSelectedTools tools = .ok ts2) :
    ts0.selected_tools ⊆ ts0.available_tools ∧
    ts2.selected_tools ⊆ ts2.available_tools ∧
    ∀ ts : Toolset, ts.reset_selected_tools.selected_tools ⊆
      ts.reset_selected_tools.available_tools := by
  refine ⟨?_, ?_, fun ts => ?_⟩
  · unfold Toolset.init at hinit
    split at hinit
    · exact absurd hinit (by simp)
    · simp only [Except.ok.injEq] at hinit
      subst hinit
      exact fun a ha => ha
  · unfold Toolset.setSelectedTools at hsel
    split at hsel
    · exact absurd hsel (by simp)
    · rename_i hf
      simp only [Except.ok.injEq] at hsel
      subst hsel
      intro a ha
      have := List.find?_eq_none.mp hf a ha
      simp only [Bool.not_eq_true', Bool.not_eq_false] at this
      exact (tool_contains_iff _ _).mp this
  · exact fun a ha => ha

/-- C5 amended witness: concrete instantiation through `Toolset("general")`
and a successful selected-tools assignment. -/
theorem selected_subset_invariant_amended_witness :
    tsGeneral.selected_tools ⊆ tsGeneral.available_tools ∧
    ({ tsGeneral with selected_tools := [Tool.RespondTool] } :
        Toolset).selected_tools ⊆
      ({ tsGeneral with selected_tools := [Tool.RespondTool] } :
        Toolset).available_tools ∧
    ∀ ts : Toolset, ts.reset_selected_tools.selected_tools ⊆
      ts.reset_selected_tools.available_tools :=
  selected_subset_invariant_amended "general" none none tsGeneral tsGeneral
    { tsGeneral with selected_tools := [Tool.RespondTool] }
    [Tool.RespondTool] rfl rfl

/-- C6 counterexample: the claim that a successful mode change resets the
selected tools to the new available set is false: after
`Toolset("general")` the mode setter with "cooking" recomputes the
available tools but leaves the selected tools as the "general" list. -/
theorem set_mode_resets_selected_cex :
    Toolset.init "general" none none = .ok tsGeneral ∧
    tsGeneral.setMode "cooking" = .ok tsCookingStale ∧
    tsCookingStale.selected_tools ≠ tsCookingStale.available_tools := by
  exact ⟨rfl, rfl, by decide⟩

/-- C6 (amended): the mode setter fails with the unsupported-mode error when
the name is not a key of `AVAILABLE_MODES` (the state is unchanged since the
check precedes every mutation); on success the available tools become the
ordered filter of the catalog by the mode's name list, whose names equal
exactly the mode's declared name list (order-preserved) for every valid
mode, while the selected tools are left unchanged (they are not reset). -/
theorem set_mode_available_tools_amended (ts : Toolset) (mode : String)
    (names : List String) (hall : ts.all_tools = TOOLS)
    (hlook : AVAILABLE_MODES.lookup mode = some names) :
    ts.setMode mode =
      .ok { ts with
              available_tools :=
                TOOLS.filter (fun t => names.contains t.qualname)
              mode := mode } ∧
    (TOOLS.filter (fun t => names.contains t.qualname)).map Tool.qualname
      = names ∧
    ∀ m, AVAILABLE_MODES.lookup m = none →
      ts.setMode m = .error (unsupportedModeMessage m) := by
  refine ⟨?_, ?_, fun m hm => ?_⟩
  · simp [Toolset.setMode, hlook, hall]
  · simp only [AVAILABLE_MODES, List.lookup] at hlook
    repeat' split at hlook
    all_goals first
      | (injection hlook with h; subst h; decide)
      | (simp at hlook)
  · simp [Toolset.setMode, hm]

/-- C6 amended witness: concrete instantiation at mode "cooking" from the
"general" state, and at the invalid mode name "driving". -/
theorem set_mode_available_tools_amended_witness :
    tsGeneral.setMode "cooking" =
      .ok { tsGeneral with
              available_tools :=
                TOOLS.filter (fun t =>
                  (["AddShoppingItemsTool", "ReadRecipeTool"] :
                      List String).contains t.qualname)
              mode := "cooking" } ∧
    (TOOLS.filter (fun t =>
        (["AddShoppingItemsTool", "ReadRecipeTool"] :
            List String).contains t.qualname)).map Tool.qualname
      = ["AddShoppingItemsTool", "ReadRecipeTool"] ∧
    tsGeneral.setMode "driving" =
      .error (unsupportedModeMessage "driving") := by
  have h := set_mode_available_tools_amended tsGeneral "cooking"
    ["AddShoppingItemsTool", "ReadRecipeTool"] rfl rfl
  exact ⟨h.1, h.2.1, h.2.2 "driving" rfl⟩

/-- C7: assigning the selected tools raises the tool-not-available error
whenever some tool in the list is outside the current available set, leaving
the selected tools unchanged (the check precedes the assignment, and the
error branch returns no new state); when every tool is available, the
assignment replaces the selected tools with exactly the given list. -/
theorem set_selected_tools_validation (ts : Toolset) (tools : List Tool) :
    ((∃ t ∈ tools, t ∉ ts.available_tools) →
      ∃ msg, ts.setSelectedTools tools = .error msg) ∧
    ((∀ t ∈ tools, t ∈ ts.available_tools) →
      ts.setSelectedTools tools =
        .ok { ts with selected_tools := tools }) := by
  constructor
  · rintro ⟨t, ht, hna⟩
    unfold Toolset.setSelectedTools
    cases hf : tools.find? (fun t => !ts.available_tools.contains t) with
    | some u => exact ⟨_, rfl⟩
    | none =>
        have := List.find?_eq_none.mp hf t ht
        simp only [Bool.not_eq_true', Bool.not_eq_false] at this
        exact absurd ((tool_contains_iff _ _).mp this) hna
  · intro h
    unfold Toolset.setSelectedTools
    have hf : tools.find? (fun t => !ts.available_tools.contains t) = none :=
      List.find?_eq_none.mpr (fun t ht => by
        simp only [Bool.not_eq_true', Bool.not_eq_false]
        exact (tool_contains_iff _ _).mpr (h t ht))
    rw [hf]

/-- C7 witness: in "general" mode, selecting `ReadRecipeTool` (not
available) errors, and selecting `RespondTool` (available) replaces the
selected tools. -/
theorem set_selected_tools_validation_witness :
    (∃ msg, tsGeneral.setSelectedTools [Tool.ReadRecipeTool] = .error msg) ∧
    tsGeneral.setSelectedTools [Tool.RespondTool] =
      .ok { tsGeneral with selected_tools := [Tool.RespondTool] } :=
  ⟨(set_selected_tools_validation tsGeneral [Tool.ReadRecipeTool]).1
      ⟨Tool.ReadRecipeTool, by decide, by decide⟩,
   (set_selected_tools_validation tsGeneral [Tool.RespondTool]).2
      (by decide)⟩

/-- C9 counterexample: the claim that providing both selectors raises an
invalid-selector error is false: with both a tool name and a schema class
provided, `get_tool` does not raise but returns the first catalog tool
matching either selector. -/
theorem get_tool_both_selectors_cex :
    tsGeneral.get_tool (some "AddTasksTool")
        (some (SchemaArg.cls SchemaId.respondInputSchema)) =
      .ok Tool.AddTasksTool := by
  rfl

/-- C9 (amended): `get_tool` raises the invalid-selector error only when
neither selector is provided (name falsy and schema absent); with exactly
one selector provided it returns the matching registered tool, or raises
the not-found error naming the attempted name or schema when nothing
matches; when both selectors are provided it does not raise the
invalid-selector error but resolves against both, returning a tool or
raising not-found. -/
theorem get_tool_resolution_amended (ts : Toolset)
    (hall : ts.all_tools = TOOLS) :
    (∀ name : Option String, pyFalsyName name = true →
      ts.get_tool name none = .error invalidSelectorMessage) ∧
    (∀ n : String, n ≠ "" → (∀ t ∈ TOOLS, t.qualname ≠ n) →
      ts.get_tool (some n) none = .error (toolNotFoundMessage n)) ∧
    (∀ n : String, ∀ t ∈ TOOLS, t.qualname = n →
      ts.get_tool (some n) none = .ok t) ∧
    (∀ arg : SchemaArg, ∀ t ∈ TOOLS,
      schemaArgMatches arg t.input_schema = true →
      ts.get_tool none (some arg) = .ok t) ∧
    (∀ arg : SchemaArg, (∀ t ∈ TOOLS,
        schemaArgMatches arg t.input_schema = false) →
      ts.get_tool none (some arg) =
        .error (toolNotFoundMessage arg.reportedName)) ∧
    (∀ (n : String) (arg : SchemaArg),
      (∃ t, ts.get_tool (some n) (some arg) = .ok t) ∨
        ts.get_tool (some n) (some arg) =
          .error (toolNotFoundMessage n)) := by
  refine ⟨fun name hname => ?_, fun n hne hn => ?_, fun n t ht hq => ?_,
    fun arg t ht harg => ?_, fun arg harg => ?_, fun n arg => ?_⟩
  · cases name with
    | none => rfl
    | some s =>
        simp only [pyFalsyName, beq_iff_eq] at hname
        subst hname
        rfl
  · unfold Toolset.get_tool
    rw [hall]
    have hfind : TOOLS.find? (fun tool =>
        (tool.qualname == n) || false) = none := by
      apply List.find?_eq_none.mpr
      intro t ht
      simp only [Bool.or_false, beq_iff_eq]
      exact hn t ht
    rw [if_neg (by simp [pyFalsyName, hne])]
    rw [hfind]
  · subst hq
    fin_cases ht <;> (unfold Toolset.get_tool; rw [hall]) <;> rfl
  · fin_cases ht <;> cases arg with
    | inst i =>
        cases i <;>
          first
            | (unfold Toolset.get_tool; rw [hall]; rfl)
            | (exact absurd harg (by simp [schemaArgMatches,
                ToolInput.schemaId, Tool.input_schema]))
    | cls c =>
        cases c <;>
          first
            | (unfold Toolset.get_tool; rw [hall]; rfl)
            | (exact absurd harg (by simp [schemaArgMatches,
                Tool.input_schema]))
    | foreignCls =>
        exact absurd harg (by simp [schemaArgMatches])
  · unfold Toolset.get_tool
    rw [hall]
    have hfind : TOOLS.find? (fun tool =>
        false || schemaArgMatches arg tool.input_schema) = none := by
      apply List.find?_eq_none.mpr
      intro t ht
      simp only [Bool.false_or]
      simp [harg t ht]
    rw [if_neg (by simp)]
    rw [hfind]
    simp
  · unfold Toolset.get_tool
    rw [hall]
    rw [if_neg (by simp)]
    cases hfind : TOOLS.find? (fun tool =>
        (tool.qualname == n) || schemaArgMatches arg tool.input_schema) with
    | some t => exact Or.inl ⟨t, rfl⟩
    | none => exact Or.inr rfl

/-- C9 amended witness: concrete instantiations covering the
invalid-selector case, the not-found cases by name and by an unregistered
schema class, a name-only match, and both selectors provided at once. -/
theorem get_tool_resolution_amended_witness :
    tsGeneral.get_tool none none = .error invalidSelectorMessage ∧
    tsGeneral.get_tool (some "InvalidTool") none =
      .error (toolNotFoundMessage "InvalidTool") ∧
    tsGeneral.get_tool (some "AddTasksTool") none = .ok Tool.AddTasksTool ∧
    tsGeneral.get_tool none (some SchemaArg.foreignCls) =
      .error (toolNotFoundMessage "InvalidSchema") ∧
    ((∃ t, tsGeneral.get_tool (some "AddTasksTool")
        (some (SchemaArg.cls SchemaId.respondInputSchema)) = .ok t) ∨
      tsGeneral.get_tool (some "AddTasksTool")
          (some (SchemaArg.cls SchemaId.respondInputSchema)) =
        .error (toolNotFoundMessage "AddTasksTool")) := by
  have h := get_tool_resolution_amended tsGeneral rfl
  exact ⟨h.1 none rfl,
    h.2.1 "InvalidTool" (by decide) (by decide),
    h.2.2.1 "AddTasksTool" Tool.AddTasksTool (by decide) rfl,
    h.2.2.2.2.1 SchemaArg.foreignCls (by intro t ht; rfl),
    h.2.2.2.2.2 "AddTasksTool" (SchemaArg.cls SchemaId.respondInputSchema)⟩

/-- C10: resolving a registered tool by its name and resolving it by an
instance of its declared input schema return the same tool. -/
theorem get_tool_round_trip (ts : Toolset) (t : Tool) (inp : ToolInput)
    (hall : ts.all_tools = TOOLS) (ht : t ∈ TOOLS)
    (hinp : inp.schemaId = t.input_schema) :
    ts.get_tool (some t.qualname) none = .ok t ∧
    ts.get_tool none (some (SchemaArg.inst inp)) = .ok t := by
  constructor
  · unfold Toolset.get_tool
    rw [hall]
    fin_cases ht <;> rfl
  · unfold Toolset.get_tool
    rw [hall]
    fin_cases ht <;>
      cases inp <;>
        simp_all [ToolInput.schemaId, Tool.input_schema] <;> rfl

/-- C10 witness: the round trip at `RespondTool` and an instance of
`RespondInputSchema`. -/
theorem get_tool_round_trip_witness :
    tsGeneral.get_tool (some "RespondTool") none = .ok Tool.RespondTool ∧
    tsGeneral.get_tool none
        (some (SchemaArg.inst (ToolInput.respond none))) =
      .ok Tool.RespondTool :=
  get_tool_round_trip tsGeneral Tool.RespondTool (ToolInput.respond none)
    rfl (by decide) rfl

/-- C8 (code bug): every call to `match_mode` raises `TypeError`, because
the call site passes the keyword argument `min_score` while
`_match_phrase` names its threshold parameter `score_cutoff`.  The claimed
behavior (exact case-insensitive match, fuzzy fallback at threshold 85,
mode update and returned name on success, `None` otherwise) is
unreachable for every input text. -/
theorem match_mode_type_error
    (extractOne : String → List String → Nat → Option (String × Nat))
    (ts : Toolset) (query : String) :
    Toolset.match_mode extractOne ts query =
      .error ("TypeError: _match_phrase() got an unexpected keyword " ++
        "argument 'min_score'") := by
  rfl

/-- Resolving `RespondTool`'s input schema through any toolset holding the
static catalog yields `RespondInputSchema`. -/
theorem get_input_schema_respond (ts : Toolset)
    (hall : ts.all_tools = TOOLS) :
    ts.get_input_schema (some "RespondTool") none =
      .ok SchemaId.respondInputSchema := by
  unfold Toolset.get_input_schema Toolset.get_tool
  rw [hall]
  rfl

/-- C1: for every dynamically built Chain Output schema over non-empty
selected and available tool sets and every otherwise-valid value of
`called_tool_input`, instantiation raises a validation failure when
`remainder` is non-empty while `next_tool` is none, raises when
`remainder` is empty while `next_tool` is present, and accepts only when
`remainder` being non-empty coincides with `next_tool` being present. -/
theorem chain_output_validation (ts : Toolset) (cti : Option ToolInput)
    (rem : String) (nt : Option String)
    (hsel : ts.selected_tools ≠ [])
    (hav : ts.available_tools ≠ [])
    (hcti : wellTypedCalledToolInput ts.selected_tools cti = true)
    (hfv : ∀ i, cti = some i → i.fieldValid = true)
    (hnt : wellTypedNextTool ts.available_tool_names nt = true) :
    ((rem ≠ "" ∧ nt = none) →
      ∃ e, buildChainOutput ts ⟨cti, rem, nt⟩ = .error e) ∧
    ((rem = "" ∧ nt ≠ none) →
      ∃ e, buildChainOutput ts ⟨cti, rem, nt⟩ = .error e) ∧
    (∀ co, buildChainOutput ts ⟨cti, rem, nt⟩ = .ok co →
      (rem ≠ "" ↔ nt ≠ none)) := by
  have hb : buildChainOutput ts ⟨cti, rem, nt⟩ =
      match chainValidate ts cti rem nt with
      | .error e => .error e
      | .ok _ => .ok ⟨cti, rem, nt⟩ := by
    unfold buildChainOutput
    simp [hcti, hnt]
  refine ⟨fun h => ?_, fun h => ?_, fun co hok => ?_⟩
  · rw [hb]
    unfold chainValidate
    rw [if_pos h]
    exact ⟨_, rfl⟩
  · rw [hb]
    unfold chainValidate
    rw [if_neg (fun hc => hc.1 h.1)]
    rw [if_pos h]
    exact ⟨_, rfl⟩
  · rw [hb] at hok
    by_cases h1 : rem = ""
    · by_cases h2 : nt = none
      · subst h1
        simp [h2]
      · unfold chainValidate at hok
        rw [if_neg (fun hc => hc.1 h1), if_pos ⟨h1, h2⟩] at hok
        exact absurd hok (by simp)
    · by_cases h2 : nt = none
      · unfold chainValidate at hok
        rw [if_pos ⟨h1, h2⟩] at hok
        exact absurd hok (by simp)
      · simp [h1, h2]

/-- C1 witness: in the "general" toolset, an `AddTasksInputSchema` instance
with a non-empty remainder and no next tool is rejected, with an empty
remainder and a next tool is rejected, and the accepted combination has a
non-empty remainder exactly when the next tool is present. -/
theorem chain_output_validation_witness :
    (∃ e, buildChainOutput tsGeneral
      ⟨some (ToolInput.addTasks ["Buy milk"]), "rest", none⟩ = .error e) ∧
    (∃ e, buildChainOutput tsGeneral
      ⟨some (ToolInput.addTasks ["Buy milk"]), "",
        some "RespondTool"⟩ = .error e) ∧
    (("rest" : String) ≠ "" ↔ (some "AddTasksTool" : Option String) ≠ none)
    := by
  have hfv : ∀ i : ToolInput,
      (some (ToolInput.addTasks ["Buy milk"]) = some i) →
      i.fieldValid = true := by
    intro i hi
    cases hi
    rfl
  have h1 := chain_output_validation tsGeneral
    (some (ToolInput.addTasks ["Buy milk"])) "rest" none
    (by decide) (by decide) rfl hfv rfl
  have h2 := chain_output_validation tsGeneral
    (some (ToolInput.addTasks ["Buy milk"])) "" (some "RespondTool")
    (by decide) (by decide) rfl hfv rfl
  have h3 := chain_output_validation tsGeneral
    (some (ToolInput.addTasks ["Buy milk"])) "rest" (some "AddTasksTool")
    (by decide) (by decide) rfl hfv rfl
  exact ⟨h1.1 ⟨by decide, rfl⟩, h2.2.1 ⟨rfl, by decide⟩,
    h3.2.2 ⟨some (ToolInput.addTasks ["Buy milk"]), "rest",
      some "AddTasksTool"⟩ rfl⟩

/-- Unfolding of the `_validate` checks for a toolset holding the static
catalog, where `RespondTool`'s input schema resolves successfully. -/
theorem chainValidate_eq (ts : Toolset) (hall : ts.all_tools = TOOLS)
    (cti : Option ToolInput) (rem : String) (nt : Option String) :
    chainValidate ts cti rem nt =
      (if rem ≠ "" ∧ nt = none then
        .error "If `remainder` is not empty, `next_tool` must not be `None`."
      else if rem = "" ∧ nt ≠ none then
        .error "If `remainder` is empty, `next_tool` must be `None`."
      else if isInstanceOf cti SchemaId.respondInputSchema ∧
          (rem ≠ "" ∨ nt ≠ none) then
        .error ("If `called_tool_input` calls `RespondTool`, `REMAINDER` " ++
          "must be empty and `next_tool` must be `None`.")
      else .ok ()) := by
  unfold chainValidate
  rw [get_input_schema_respond ts hall]

/-- C2: for every dynamically built Chain Output schema whose selected
tools include `RespondTool`, an instance whose `called_tool_input` is a
`RespondInputSchema` instance is rejected whenever `remainder` is
non-empty or `next_tool` is present, regardless of the response text, and
is accepted with an empty `remainder` and no `next_tool`. -/
theorem respond_tool_terminal_validation (ts : Toolset)
    (r : Option String) (rem : String) (nt : Option String)
    (hall : ts.all_tools = TOOLS)
    (hsel : Tool.RespondTool ∈ ts.selected_tools)
    (hnt : wellTypedNextTool ts.available_tool_names nt = true) :
    ((rem ≠ "" ∨ nt ≠ none) →
      ∃ e, buildChainOutput ts
        ⟨some (ToolInput.respond r), rem, nt⟩ = .error e) ∧
    buildChainOutput ts ⟨some (ToolInput.respond r), "", none⟩ =
      .ok ⟨some (ToolInput.respond r), "", none⟩ := by
  have hcti : wellTypedCalledToolInput ts.selected_tools
      (some (ToolInput.respond r)) = true := by
    simp only [wellTypedCalledToolInput, List.any_eq_true]
    exact ⟨Tool.RespondTool, hsel, rfl⟩
  constructor
  · intro h
    have hb : buildChainOutput ts ⟨some (ToolInput.respond r), rem, nt⟩ =
        match chainValidate ts (some (ToolInput.respond r)) rem nt with
        | .error e => .error e
        | .ok _ => .ok ⟨some (ToolInput.respond r), rem, nt⟩ := by
      unfold buildChainOutput
      simp [hcti, hnt]
    rw [hb, chainValidate_eq ts hall]
    by_cases h1 : rem ≠ "" ∧ nt = none
    · rw [if_pos h1]
      exact ⟨_, rfl⟩
    · rw [if_neg h1]
      by_cases h2 : rem = "" ∧ nt ≠ none
      · rw [if_pos h2]
        exact ⟨_, rfl⟩
      · rw [if_neg h2]
        rw [if_pos ⟨rfl, h⟩]
        exact ⟨_, rfl⟩
  · have hb : buildChainOutput ts ⟨some (ToolInput.respond r), "", none⟩ =
        match chainValidate ts (some (ToolInput.respond r)) "" none with
        | .error e => .error e
        | .ok _ => .ok ⟨some (ToolInput.respond r), "", none⟩ := by
      unfold buildChainOutput
      simp [hcti, wellTypedNextTool]
    rw [hb, chainValidate_eq ts hall]
    rw [if_neg (fun hc => hc.1 rfl)]
    rw [if_neg (fun hc => hc.2 rfl)]
    rw [if_neg (fun hc => hc.2.elim (fun hh => hh rfl) (fun hh => hh rfl))]

/-- C2 witness: in the "general" toolset, a `RespondInputSchema` instance
with a non-empty remainder is rejected, one with a next tool is rejected,
and one with an empty remainder and no next tool is accepted. -/
theorem respond_tool_terminal_validation_witness :
    (∃ e, buildChainOutput tsGeneral
      ⟨some (ToolInput.respond (some "This is a response.")), "rest",
        none⟩ = .error e) ∧
    (∃ e, buildChainOutput tsGeneral
      ⟨some (ToolInput.respond (some "This is a response.")), "",
        some "AddTasksTool"⟩ = .error e) ∧
    buildChainOutput tsGeneral
        ⟨some (ToolInput.respond (some "This is a response.")), "",
          none⟩ =
      .ok ⟨some (ToolInput.respond (some "This is a response.")), "",
        none⟩ := by
  have h1 := respond_tool_terminal_validation tsGeneral
    (some "This is a response.") "rest" none rfl (by decide) rfl
  have h2 := respond_tool_terminal_validation tsGeneral
    (some "This is a response.") "" (some "AddTasksTool") rfl
    (by decide) rfl
  exact ⟨h1.1 (Or.inl (by decide)), h2.1 (Or.inr (by simp)), h1.2⟩

/-- C4: at a terminal iteration of the chaining loop (the validated
response's `next_tool` is none), the run returns the executed tool's
`response` attribute when its output exposes one; otherwise it returns the
newline-joined `result` texts captured during this run (the earlier
captures plus this iteration's, if any), falling back to the default
completion marker "Done." when that join is empty; with no tool executed
in the final iteration it returns the joined earlier captures, or "Done."
when there are none. -/
theorem run_terminal_iteration_response (engine : Nat → ChainOutput)
    (N fuel : Nat) (ts : Toolset) (query : String) (rt : List String)
    (r : ChainOutput)
    (hb : buildChainOutput ts (engine (N - (fuel + 1))) = .ok r)
    (hterm : r.next_tool = none) :
    (r.called_tool_input = none →
      runChainAux engine N (fuel + 1) ts query rt =
        .ok (some (joinResultsOrDone rt))) ∧
    (∀ inp inst out, r.called_tool_input = some inp →
      ts.init_tool none (some (.inst inp)) = .ok inst →
      inst.run inp = .ok out →
      ((∀ resp, out.responseAttr = some resp →
          runChainAux engine N (fuel + 1) ts query rt = .ok resp) ∧
        (∀ res, out.responseAttr = none → out.resultAttr = some res →
          runChainAux engine N (fuel + 1) ts query rt =
            .ok (some (joinResultsOrDone (rt ++ [res])))))) := by
  constructor
  · intro hcti
    unfold runChainAux
    rw [hb]
    simp only [hcti, hterm, Option.none_bind]
  · intro inp inst out hcti hinit hrun
    constructor
    · intro resp hresp
      unfold runChainAux
      rw [hb]
      simp only [hcti, hinit, hrun, hterm, hresp]
    · intro res hnoresp hres
      unfold runChainAux
      rw [hb]
      simp only [hcti, hinit, hrun, hterm, hnoresp, hres, Option.some_bind]

/-- C4 witness: a single-iteration run whose response calls `RespondTool`
with text "hello", empty remainder and no next tool returns "hello"
through `AssistantAgent.run`. -/
theorem run_terminal_iteration_response_witness :
    AssistantAgent.run
        (fun _ => ⟨some (ToolInput.respond (some "hello")), "", none⟩)
        tsGeneral "Hi" true 1 =
      .ok (some "hello") := by
  have h := run_terminal_iteration_response
    (fun _ => ⟨some (ToolInput.respond (some "hello")), "", none⟩)
    1 0 tsGeneral.reset_selected_tools "Hi" []
    ⟨some (ToolInput.respond (some "hello")), "", none⟩ rfl rfl
  exact (h.2 (ToolInput.respond (some "hello")) ToolInstance.respondTool
    (ToolOutput.respond (some "hello")) rfl rfl rfl).1 (some "hello") rfl

/-- Helper: membership for string lists via the boolean `contains`. -/
theorem string_contains_iff (l : List String) (s : String) :
    l.contains s ↔ s ∈ l :=
  List.elem_iff

/-- Helper: finding a catalog tool by its own qualified name returns that
tool (qualified names are distinct across the catalog). -/
theorem find_tool_by_qualname (t : Tool) (ht : t ∈ TOOLS) :
    TOOLS.find? (fun u => u.qualname == t.qualname) = some t := by
  fin_cases ht <;> rfl

/-- Helper: assigning selected tools that are all available succeeds and
replaces the selected list. -/
theorem setSelectedTools_ok (ts : Toolset) (tools : List Tool)
    (h : ∀ t ∈ tools, t ∈ ts.available_tools) :
    ts.setSelectedTools tools = .ok { ts with selected_tools := tools } := by
  unfold Toolset.setSelectedTools
  have hf : tools.find? (fun t => !ts.available_tools.contains t) = none :=
    List.find?_eq_none.mpr (fun t ht => by
      simp only [Bool.not_eq_true', Bool.not_eq_false]
      exact (tool_contains_iff _ _).mpr (h t ht))
  rw [hf]

/-- Helper: resolving a name drawn from the available tool names returns a
member of the available tools, namely the unique catalog tool with that
qualified name. -/
theorem get_tool_next_name (ts : Toolset) (hall : ts.all_tools = TOOLS)
    (hsub : ts.available_tools ⊆ TOOLS) (n : String)
    (hmem : n ∈ ts.available_tool_names) :
    ∃ u, ts.get_tool (some n) none = .ok u ∧ u ∈ ts.available_tools ∧
      TOOLS.find? (fun t => t.qualname == n) = some u := by
  unfold Toolset.available_tool_names at hmem
  obtain ⟨u, hu, hq⟩ := List.mem_map.mp hmem
  subst hq
  have hne : u.qualname ≠ "" := by cases u <;> decide
  have hfind := find_tool_by_qualname u (hsub hu)
  refine ⟨u, ?_, hu, hfind⟩
  unfold Toolset.get_tool
  rw [hall]
  rw [if_neg (by simp [pyFalsyName, hne])]
  simp only [Bool.or_false]
  rw [hfind]

/-- Helper: with both collaborators stored in the toolset, instantiating
the tool resolved from an input instance succeeds, and running it on that
instance succeeds. -/
theorem init_tool_run_ok (ts : Toolset) (hall : ts.all_tools = TOOLS)
    (ob : Obsidian) (me : Mealie) (hob : ts.obsidian = some ob)
    (hme : ts.mealie = some me) (inp : ToolInput) :
    ∃ inst out, ts.init_tool none (some (SchemaArg.inst inp)) = .ok inst ∧
      inst.run inp = .ok out := by
  unfold Toolset.init_tool Toolset.get_tool
  rw [hall]
  cases inp with
  | addTasks tasks =>
      rw [hob]
      exact ⟨_, _, rfl, rfl⟩
  | addShoppingItems items =>
      rw [hme]
      exact ⟨_, _, rfl, rfl⟩
  | readRecipe a b c => exact ⟨_, _, rfl, rfl⟩
  | respond r => exact ⟨_, _, rfl, rfl⟩

/-- Helper: `chainSelected` only consults the engine below the given
index. -/
theorem chainSelected_congr (engine engine2 : Nat → ChainOutput)
    (ts0 : Toolset) (N : Nat)
    (hag : ∀ i, i < N → engine2 i = engine i) :
    ∀ i, i ≤ N → chainSelected engine2 ts0 i = chainSelected engine ts0 i := by
  intro i
  cases i with
  | zero => intro _; rfl
  | succ j =>
      intro hle
      simp only [chainSelected]
      rw [hag j (by omega)]

/-- Helper: the chaining loop invariant.  Starting anywhere inside the
loop with the catalog, the available tools, the mode and the collaborators
of the post-reset state `ts0`, and with the selected tools the chain
prescribes for the current iteration, a suffix of valid non-terminal steps
drives the loop into the max-chain error, which carries the mode and the
final unaddressed remainder. -/
theorem runChainAux_max_chain (engine : Nat → ChainOutput) (N : Nat)
    (ts0 : Toolset) (hsub : ts0.available_tools ⊆ TOOLS)
    (ob : Obsidian) (me : Mealie) :
    ∀ fuel, fuel ≤ N → ∀ (ts : Toolset) (query : String)
      (rt : List String),
      ts.all_tools = TOOLS →
      ts.available_tools = ts0.available_tools →
      ts.mode = ts0.mode →
      ts.obsidian = some ob →
      ts.mealie = some me →
      ts.selected_tools = chainSelected engine ts0 (N - fuel) →
      (∀ i, N - fuel ≤ i → i < N → ChainStepOk engine ts0 i) →
      runChainAux engine N fuel ts query rt =
        .error (.maxChainExceeded N ts0.mode
          (if fuel = 0 then query else (engine (N - 1)).remainder)) := by
  intro fuel
  induction fuel with
  | zero =>
      intro _ ts query rt _ _ hmode _ _ _ _
      unfold runChainAux
      rw [hmode]
      simp
  | succ fuel ih =>
      intro hle ts query rt hall havail hmode hob hme hsel H
      have hfl : N - (fuel + 1) < N := by omega
      obtain ⟨hrem, ⟨n, hn, hnav⟩, hwt, hnr⟩ := H (N - (fuel + 1)) le_rfl hfl
      have hnav2 : n ∈ ts.available_tool_names := by
        unfold Toolset.available_tool_names
        rw [havail]
        exact hnav
      have hwt2 : wellTypedCalledToolInput ts.selected_tools
          (engine (N - (fuel + 1))).called_tool_input = true := by
        rw [hsel]
        exact hwt
      have hwtn : wellTypedNextTool ts.available_tool_names
          (engine (N - (fuel + 1))).next_tool = true := by
        rw [hn]
        unfold wellTypedNextTool
        exact (string_contains_iff _ _).mpr hnav2
      have hiro : isInstanceOf (engine (N - (fuel + 1))).called_tool_input
          SchemaId.respondInputSchema = false := by
        cases hcti : (engine (N - (fuel + 1))).called_tool_input with
        | none => rfl
        | some inp =>
            cases inp with
            | respond r => exact absurd hcti (hnr r)
            | addTasks tasks => rfl
            | addShoppingItems items => rfl
            | readRecipe a b c => rfl
      have hb : buildChainOutput ts (engine (N - (fuel + 1))) =
          .ok (engine (N - (fuel + 1))) := by
        unfold buildChainOutput
        simp only [hwt2, hwtn, Bool.not_true, Bool.false_eq_true, if_false]
        rw [chainValidate_eq ts hall]
        rw [if_neg (fun hc => by
          rw [hn] at hc
          exact Option.noConfusion hc.2)]
        rw [if_neg (fun hc => hrem hc.1)]
        rw [if_neg (fun hc => by
          rw [hiro] at hc
          exact Bool.noConfusion hc.1)]
      obtain ⟨u, hget, huav, hfind⟩ := get_tool_next_name ts hall
        (by rw [havail]; exact hsub) n hnav2
      have hset : ts.setSelectedTools [u] =
          .ok { ts with selected_tools := [u] } :=
        setSelectedTools_ok ts [u] (by
          intro t ht
          rw [List.mem_singleton] at ht
          subst ht
          exact huav)
      have hselrec : ({ ts with selected_tools := [u] } :
          Toolset).selected_tools = chainSelected engine ts0 (N - fuel) := by
        show [u] = _
        have hx : N - fuel = (N - (fuel + 1)) + 1 := by omega
        rw [hx]
        simp only [chainSelected]
        rw [hn]
        simp only [hfind]
      have harg : ∀ i, N - fuel ≤ i → i < N → ChainStepOk engine ts0 i :=
        fun i h1 h2 => H i (by omega) h2
      have hrec := fun rt2 => ih (by omega) { ts with selected_tools := [u] }
        (engine (N - (fuel + 1))).remainder rt2 hall havail hmode hob hme
        hselrec harg
      unfold runChainAux
      rw [hb]
      cases hcti : (engine (N - (fuel + 1))).called_tool_input with
      | none =>
          simp only [hcti, hn, hget, hset, Option.none_bind]
          rw [hrec rt]
          by_cases hf : fuel = 0
          · subst hf
            simp
          · simp [hf]
      | some inp =>
          obtain ⟨inst, out, hinit, hrun⟩ :=
            init_tool_run_ok ts hall ob me hob hme inp
          simp only [hcti, hinit, hrun, hn, hget, hset, Option.some_bind]
          rw [hrec _]
          by_cases hf : fuel = 0
          · subst hf
            simp
          · simp [hf]

/-- C3: with a positive chain budget `N`, `AssistantAgent.run` performs at
most `N` iterations and settles: when every one of the `N` iterations
produces a validated response demanding a further tool (`next_tool` not
none, the chain never reaching a terminal iteration), the run raises the
max-chain-exceeded error naming the current mode and the remaining
unaddressed query text — the last response's remainder, witnessing that
exactly `N` iterations ran; and any engine agreeing with it on the first
`N` iterations yields the identical outcome, so no iteration beyond `N`
is ever consulted. -/
theorem run_max_chain_exceeded (engine engine2 : Nat → ChainOutput)
    (ts : Toolset) (query : String) (N : Nat)
    (ob : Obsidian) (me : Mealie)
    (hall : ts.all_tools = TOOLS)
    (hsub : ts.available_tools ⊆ TOOLS)
    (hob : ts.obsidian = some ob) (hme : ts.mealie = some me)
    (hN : 0 < N)
    (H : ∀ i, i < N → ChainStepOk engine ts.reset_selected_tools i)
    (hagree : ∀ i, i < N → engine2 i = engine i) :
    AssistantAgent.run engine ts query true N =
      .error (.maxChainExceeded N ts.mode ((engine (N - 1)).remainder)) ∧
    AssistantAgent.run engine2 ts query true N =
      AssistantAgent.run engine ts query true N := by
  have hmain : ∀ e : Nat → ChainOutput,
      (∀ i, i < N → ChainStepOk e ts.reset_selected_tools i) →
      AssistantAgent.run e ts query true N =
        .error (.maxChainExceeded N ts.mode ((e (N - 1)).remainder)) := by
    intro e He
    have h := runChainAux_max_chain e N ts.reset_selected_tools hsub ob me
      N le_rfl ts.reset_selected_tools query [] hall rfl rfl hob hme
      (by rw [Nat.sub_self]; rfl) (fun i h1 h2 => He i h2)
    unfold AssistantAgent.run
    rw [if_pos rfl] at *
    rw [h]
    rw [if_neg (by omega)]
    rfl
  have H2 : ∀ i, i < N → ChainStepOk engine2 ts.reset_selected_tools i := by
    intro i hi
    obtain ⟨h1, h2, h3, h4⟩ := H i hi
    unfold ChainStepOk
    rw [hagree i hi]
    refine ⟨h1, h2, ?_, h4⟩
    rw [chainSelected_congr engine engine2 ts.reset_selected_tools N hagree
      i (by omega)]
    exact h3
  refine ⟨hmain engine H, ?_⟩
  rw [hmain engine2 H2, hmain engine H, hagree (N - 1) (by omega)]

/-- C3 witness: `run(query, max_chain=1)` against an engine whose single
response skips the tool call, leaves a remainder and demands a second
tool raises the max-chain error after exactly one iteration, naming the
"general" mode and the unaddressed remainder. -/
theorem run_max_chain_exceeded_witness :
    AssistantAgent.run
        (fun _ => ⟨none, "rest of the query", some "RespondTool"⟩)
        tsGeneralFull "query" true 1 =
      .error (.maxChainExceeded 1 "general" "rest of the query") := by
  have h := run_max_chain_exceeded
    (fun _ => ⟨none, "rest of the query", some "RespondTool"⟩)
    (fun _ => ⟨none, "rest of the query", some "RespondTool"⟩)
    tsGeneralFull "query" 1 Obsidian.mk mealieStub rfl
    (by intro t ht; fin_cases ht <;> decide)
    rfl rfl (by decide)
    (fun i hi =>
      ⟨by
        show ("rest of the query" : String) ≠ ""
        decide,
       ⟨"RespondTool", rfl, by
        show "RespondTool" ∈
          tsGeneralFull.reset_selected_tools.available_tool_names
        decide⟩,
       rfl, fun r hr => Option.noConfusion hr⟩)
    (fun i hi => rfl)
  exact h.1
